import Mathlib

/-!
Verification of the request-admission pipeline of the lovable-mcp server
(`src/server/server.py`): the per-key sliding-window rate limiter
(`RateLimiter.is_rate_limited`), API-key authentication
(`LovableMCPServer.validate_request`), per-endpoint payload validation,
and the three HTTP handlers (`generate_component`, `apply_pattern`,
`detect_bugs`) with their uniform error envelope.

Timestamps (`time.time()` in the source) are modelled as integers: the
limiter only subtracts and compares time values, so every theorem below
is a statement about those order-theoretic operations.

JSON values (the parsed request bodies and the response bodies) are
modelled by an inductive `Json` type; a parse failure of the raw body is
modelled as the absence of a `Json` value.
-/

/-- JSON values, as produced by parsing a request body. An object is the
list of its key/value pairs (the parsed Python dict, so keys are unique). -/
inductive Json where
  | null : Json
  | bool : Bool → Json
  | num : Int → Json
  | str : String → Json
  | arr : List Json → Json
  | obj : List (String × Json) → Json

/-- An HTTP response: status code and JSON body. Error responses raised as
`web.HTTPException(reason=r)` are modelled with the body `{"reason": r}`,
the error envelope shape the server exposes. -/
structure HttpResponse where
  status : Nat
  body : Json

/-- The response for a raised `web.HTTPException` with the given status
code and reason string. -/
def errResponse (code : Nat) (reason : String) : HttpResponse :=
  ⟨code, Json.obj [("reason", Json.str reason)]⟩

/-- `ComponentType` enum from `server.py` lines 18-23. -/
inductive ComponentType where
  | button : ComponentType
  | form : ComponentType
  | card : ComponentType
  | dialog : ComponentType
  | table : ComponentType
deriving DecidableEq

/-- The string value of each `ComponentType` member. -/
def ComponentType.value : ComponentType → String
  | .button => "button"
  | .form => "form"
  | .card => "card"
  | .dialog => "dialog"
  | .table => "table"

/-- Coercion of a JSON string into the `ComponentType` enum, as pydantic
performs when validating the `type` field: only the five enum values. -/
def ComponentType.fromValue : String → Option ComponentType
  | "button" => some .button
  | "form" => some .form
  | "card" => some .card
  | "dialog" => some .dialog
  | "table" => some .table
  | _ => none

/-- `UIComponent` pydantic model, `server.py` lines 25-29: `type` is the
enum, `props` a dict, `styles` and `accessibility` optional dicts
(default `None`). -/
structure UIComponent where
  type : ComponentType
  props : List (String × Json)
  styles : Option (List (String × Json))
  accessibility : Option (List (String × Json))

/-- `DesignPattern` pydantic model, `server.py` lines 31-34:
`pattern_type` a string, `context` a dict, `constraints` a list of
strings defaulting to empty. -/
structure DesignPattern where
  pattern_type : String
  context : List (String × Json)
  constraints : List String

/-- Key lookup in a parsed JSON object (Python `data.get(key)` /
`data[key]`; keys of a parsed object are unique). -/
def lookupField : List (String × Json) → String → Option Json
  | [], _ => none
  | (k, v) :: rest, key => if k = key then some v else lookupField rest key

/-- A field that pydantic accepts for `dict | None = None`: absent,
explicit `null`, or a dict. Returns the stored value on success. -/
def validateOptDict : Option Json → Option (Option (List (String × Json)))
  | none => some none
  | some Json.null => some none
  | some (Json.obj d) => some (some d)
  | some _ => none

/-- Pydantic validation `UIComponent(**data)` on a parsed JSON object
(`server.py` line 100): `type` must be a string naming an enum member,
`props` must be a dict, `styles`/`accessibility` absent, null, or dicts;
extra keys are ignored. `none` models the `ValidationError` that the
handler converts into a 400 response. -/
def validateUIComponent (fields : List (String × Json)) : Option UIComponent :=
  match lookupField fields "type" with
  | some (Json.str s) =>
    match ComponentType.fromValue s with
    | some ct =>
      match lookupField fields "props" with
      | some (Json.obj props) =>
        match validateOptDict (lookupField fields "styles") with
        | some styles =>
          match validateOptDict (lookupField fields "accessibility") with
          | some acc => some ⟨ct, props, styles, acc⟩
          | none => none
        | none => none
      | _ => none
    | none => none
  | _ => none

/-- All elements are JSON strings; returns them (pydantic `list[str]`). -/
def allStrings : List Json → Option (List String)
  | [] => some []
  | Json.str s :: rest =>
    match allStrings rest with
    | some ss => some (s :: ss)
    | none => none
  | _ => none

/-- Pydantic validation `DesignPattern(**data)` on a parsed JSON object
(`server.py` line 125): `pattern_type` must be a string, `context` a
dict, `constraints` an optional list of strings defaulting to `[]`. -/
def validateDesignPattern (fields : List (String × Json)) : Option DesignPattern :=
  match lookupField fields "pattern_type" with
  | some (Json.str s) =>
    match lookupField fields "context" with
    | some (Json.obj c) =>
      match lookupField fields "constraints" with
      | none => some ⟨s, c, []⟩
      | some (Json.arr xs) =>
        match allStrings xs with
        | some ss => some ⟨s, c, ss⟩
        | none => none
      | some _ => none
    | _ => none
  | _ => none

/-- `pattern.dict()` serialised into the JSON response (`server.py`
lines 131-134). -/
def DesignPattern.toJson (p : DesignPattern) : Json :=
  Json.obj [("pattern_type", Json.str p.pattern_type), ("context", Json.obj p.context),
    ("constraints", Json.arr (p.constraints.map Json.str))]

/-- A JSON string (used by the documented `constraints` element type). -/
def isStringJson : Json → Bool
  | Json.str _ => true
  | _ => false

/-- Modelled from the spec: the documented `type` field of
ComponentRequest, an enum value among button, form, card, dialog, table. -/
def isEnumTypeField : Option Json → Bool
  | some (Json.str s) => (ComponentType.fromValue s).isSome
  | _ => false

/-- Modelled from the spec: a required string-valued field. -/
def isStringField : Option Json → Bool
  | some (Json.str _) => true
  | _ => false

/-- Modelled from the spec: a required map-valued field. -/
def isDictField : Option Json → Bool
  | some (Json.obj _) => true
  | _ => false

/-- Modelled from the spec: an optional map-valued field (absent, an
explicit null standing for absent, or a map). -/
def isOptionalDictField : Option Json → Bool
  | none => true
  | some Json.null => true
  | some (Json.obj _) => true
  | _ => false

/-- Modelled from the spec: the optional `constraints` field of
PatternRequest, an ordered sequence of strings defaulting to empty. -/
def isOptionalStringListField : Option Json → Bool
  | none => true
  | some (Json.arr xs) => xs.all isStringJson
  | _ => false

/-- Modelled from the spec: a well-formed ComponentRequest object,
following the documented data model `ComponentRequest{type:
enum{button,form,card,dialog,table}, props: map, styles: optional map,
accessibility: optional map}`. -/
def specComponentOk (fields : List (String × Json)) : Bool :=
  isEnumTypeField (lookupField fields "type")
    && isDictField (lookupField fields "props")
    && isOptionalDictField (lookupField fields "styles")
    && isOptionalDictField (lookupField fields "accessibility")

/-- Modelled from the spec: a well-formed PatternRequest object, following
the documented data model `PatternRequest{pattern_type: string, context:
map, constraints: ordered sequence of string (default empty)}`. -/
def specPatternOk (fields : List (String × Json)) : Bool :=
  isStringField (lookupField fields "pattern_type")
    && isDictField (lookupField fields "context")
    && isOptionalStringListField (lookupField fields "constraints")

/-- `RateLimiter` state, `server.py` lines 36-39: the configured limit and
the per-key timestamp lists. `self.requests` is a `defaultdict(list)`,
modelled as a total function defaulting to `[]`. -/
structure RateLimiter where
  requests_per_minute : Nat
  requests : String → List Int

/-- A fresh limiter with the given limit: the window of every key is empty. -/
def freshLimiter (limit : Nat) : RateLimiter :=
  ⟨limit, fun _ => []⟩

/-- The prune step, `server.py` line 46: keep exactly the timestamps `t`
with `t > now - 60` (strictly newer than one minute ago). -/
def prune (window : List Int) (minute_ago : Int) : List Int :=
  window.filter (fun t => decide (minute_ago < t))

/-- `RateLimiter.is_rate_limited`, `server.py` lines 41-54. Returns the
decision (`true` = limited) and the updated limiter: the pruned window is
written back in both branches; `now` is appended only when the pruned
count is below the limit. -/
def is_rate_limited (rl : RateLimiter) (api_key : String) (now : Int) :
    Bool × RateLimiter :=
  let minute_ago := now - 60
  let pruned := prune (rl.requests api_key) minute_ago
  if rl.requests_per_minute ≤ pruned.length then
    (true, ⟨rl.requests_per_minute,
      fun k => if k = api_key then pruned else rl.requests k⟩)
  else
    (false, ⟨rl.requests_per_minute,
      fun k => if k = api_key then pruned ++ [now] else rl.requests k⟩)

/-- An incoming HTTP POST request as the handlers see it: the matched
path, the `X-API-Key` header (absent or its string value), and the parsed
JSON body (`none` when `request.json()` raises, i.e. malformed JSON). -/
structure Request where
  path : String
  apiKey : Option String
  body : Option Json

/-- `LovableMCPServer.validate_request`, `server.py` lines 79-89: missing
or empty key (`if not api_key`) raises 401 `API key required`; a
rate-limited key raises 429. Returns the accepted key or the raised
response, together with the limiter state (mutated by the rate check). -/
def validate_request (rl : RateLimiter) (req : Request) (now : Int) :
    Except HttpResponse String × RateLimiter :=
  match req.apiKey with
  | none => (Except.error (errResponse 401 "API key required"), rl)
  | some k =>
    if k = "" then (Except.error (errResponse 401 "API key required"), rl)
    else
      let r := is_rate_limited rl k now
      if r.1 then
        (Except.error (errResponse 429 "Rate limit exceeded. Please try again later."), r.2)
      else (Except.ok k, r.2)

/-- Outcome of the `try` body of a handler: a returned response, a raised
`web.HTTPException`, or any other exception with its detail string. -/
inductive PyOutcome where
  | resp : HttpResponse → PyOutcome
  | httpExc : HttpResponse → PyOutcome
  | exc : String → PyOutcome

/-- The shared `except` clauses of the three handlers (`server.py` lines
110-114, 135-139, 158-162): a `web.HTTPException` is re-raised as-is
(becoming the response); any other exception is logged server-side and
replaced by a generic 500 whose reason never depends on the detail. -/
def handlerWrapper : PyOutcome → HttpResponse
  | PyOutcome.resp r => r
  | PyOutcome.httpExc r => r
  | PyOutcome.exc _ => errResponse 500 "Internal server error occurred"

/-- Whether a parsed JSON object has the given key (Python `key in data`
for a dict). -/
def hasField (fields : List (String × Json)) (key : String) : Bool :=
  fields.any (fun p => decide (p.1 = key))

/-- The Python expression `key in data` on a parsed JSON value: key lookup on an
object, membership on an array, substring test on a string; `none` models
the `TypeError` raised on the other value types. -/
def pyContains (j : Json) (key : String) : Option Bool :=
  match j with
  | Json.obj fields => some (hasField fields key)
  | Json.arr xs => some (xs.any (fun x => match x with
      | Json.str s => decide (s = key)
      | _ => false))
  | Json.str s => some (decide ((s.splitOn key).length ≠ 1))
  | _ => none

/-- The `try` body of `generate_component`, `server.py` lines 92-109:
authenticate and rate-limit, parse the JSON body (failure → 400
`Invalid JSON payload`), build `UIComponent(**data)` (a non-object body
makes `**` raise `TypeError`; a validation failure raises 400). When
validation succeeds, the source calls `web.json_response` on
`component.dict()`; that dict still holds the plain Enum member
`ComponentType` for the `type` field (pydantic v1 and v2 alike keep the
member, and the model sets no `use_enum_values`), so `json.dumps` inside
`web.json_response` raises `TypeError: Object of type ComponentType is
not JSON serializable` within the `try` block. The handler therefore
never returns the 200 envelope: every validated payload falls into the
generic `except` clause. The 400 reason for a validation failure carries
the pydantic message in the source; its exact text is abstracted here. -/
def generate_component_attempt (rl : RateLimiter) (req : Request) (now : Int) :
    PyOutcome × RateLimiter :=
  let v := validate_request rl req now
  match v.1 with
  | Except.error e => (PyOutcome.httpExc e, v.2)
  | Except.ok _ =>
    match req.body with
    | none => (PyOutcome.httpExc (errResponse 400 "Invalid JSON payload"), v.2)
    | some (Json.obj fields) =>
      match validateUIComponent fields with
      | none => (PyOutcome.httpExc (errResponse 400 "Invalid component data"), v.2)
      | some _ =>
        (PyOutcome.exc "Object of type ComponentType is not JSON serializable", v.2)
    | some _ => (PyOutcome.exc "argument after ** must be a mapping", v.2)

/-- `LovableMCPServer.generate_component`, `server.py` lines 91-114. -/
def generate_component (rl : RateLimiter) (req : Request) (now : Int) :
    HttpResponse × RateLimiter :=
  let a := generate_component_attempt rl req now
  (handlerWrapper a.1, a.2)

/-- The `try` body of `apply_pattern`, `server.py` lines 117-134;
structure as in `generate_component_attempt` with `DesignPattern`. -/
def apply_pattern_attempt (rl : RateLimiter) (req : Request) (now : Int) :
    PyOutcome × RateLimiter :=
  let v := validate_request rl req now
  match v.1 with
  | Except.error e => (PyOutcome.httpExc e, v.2)
  | Except.ok _ =>
    match req.body with
    | none => (PyOutcome.httpExc (errResponse 400 "Invalid JSON payload"), v.2)
    | some (Json.obj fields) =>
      match validateDesignPattern fields with
      | none => (PyOutcome.httpExc (errResponse 400 "Invalid pattern data"), v.2)
      | some p =>
        (PyOutcome.resp ⟨200, Json.obj [("status", Json.str "success"),
          ("pattern", p.toJson)]⟩, v.2)
    | some _ => (PyOutcome.exc "argument after ** must be a mapping", v.2)

/-- `LovableMCPServer.apply_pattern`, `server.py` lines 116-139. -/
def apply_pattern (rl : RateLimiter) (req : Request) (now : Int) :
    HttpResponse × RateLimiter :=
  let a := apply_pattern_attempt rl req now
  (handlerWrapper a.1, a.2)

/-- The `try` body of `detect_bugs`, `server.py` lines 142-157:
authenticate and rate-limit, parse JSON, then check only that the keys
code and context are `in data` (no type check of their values); on success
return the fixed envelope with an empty `issues` list. -/
def detect_bugs_attempt (rl : RateLimiter) (req : Request) (now : Int) :
    PyOutcome × RateLimiter :=
  let v := validate_request rl req now
  match v.1 with
  | Except.error e => (PyOutcome.httpExc e, v.2)
  | Except.ok _ =>
    match req.body with
    | none => (PyOutcome.httpExc (errResponse 400 "Invalid JSON payload"), v.2)
    | some data =>
      match pyContains data "code" with
      | none => (PyOutcome.exc "argument of type is not iterable", v.2)
      | some false =>
        (PyOutcome.httpExc (errResponse 400 "Missing required fields: code and context"), v.2)
      | some true =>
        match pyContains data "context" with
        | none => (PyOutcome.exc "argument of type is not iterable", v.2)
        | some false =>
          (PyOutcome.httpExc (errResponse 400 "Missing required fields: code and context"), v.2)
        | some true =>
          (PyOutcome.resp ⟨200, Json.obj [("status", Json.str "success"),
            ("issues", Json.arr [])]⟩, v.2)

/-- `LovableMCPServer.detect_bugs`, `server.py` lines 141-162. -/
def detect_bugs (rl : RateLimiter) (req : Request) (now : Int) :
    HttpResponse × RateLimiter :=
  let a := detect_bugs_attempt rl req now
  (handlerWrapper a.1, a.2)

/-- The routed server (`setup_routes`, `server.py` lines 73-77, plus
the aiohttp router): the path is matched first; an unmatched path yields
404 before any handler (and hence before authentication) runs. -/
def handle (rl : RateLimiter) (req : Request) (now : Int) :
    HttpResponse × RateLimiter :=
  if req.path = "/generate_component" then generate_component rl req now
  else if req.path = "/apply_pattern" then apply_pattern rl req now
  else if req.path = "/detect_bugs" then detect_bugs rl req now
  else (errResponse 404 "Not Found", rl)

/-- A sequence of `is_rate_limited` calls for one key at the given times:
the list of decisions and the final limiter state. -/
def runCalls (rl : RateLimiter) (k : String) : List Int → List Bool × RateLimiter
  | [] => ([], rl)
  | t :: ts =>
    let r := is_rate_limited rl k t
    let rest := runCalls r.2 k ts
    (r.1 :: rest.1, rest.2)

/-- A sequence of `is_rate_limited` calls for arbitrary keys: the final
limiter state (used to range over the reachable limiter states). -/
def runAll (rl : RateLimiter) : List (String × Int) → RateLimiter
  | [] => rl
  | (k, t) :: rest => runAll (is_rate_limited rl k t).2 rest

/-- The limiter state whose window for `k` is `w` and empty elsewhere. -/
def setW (k : String) (w : List Int) : String → List Int :=
  fun k2 => if k2 = k then w else []

lemma setW_empty (k : String) : setW k [] = fun _ => [] := by
  funext k2
  simp [setW]

lemma prune_eq_self {w : List Int} {m : Int} (h : ∀ x ∈ w, m < x) :
    prune w m = w := by
  simp only [prune, List.filter_eq_self, decide_eq_true_eq]
  exact h


lemma is_rate_limited_below_cap (rl : RateLimiter) (k : String) (now : Int)
    (h1 : prune (rl.requests k) (now - 60) = rl.requests k)
    (h2 : (rl.requests k).length < rl.requests_per_minute) :
    is_rate_limited rl k now
      = (false, ⟨rl.requests_per_minute,
          fun k2 => if k2 = k then rl.requests k ++ [now] else rl.requests k2⟩) := by
  simp only [is_rate_limited, h1]
  rw [if_neg (by omega)]

lemma is_rate_limited_full (rl : RateLimiter) (k : String) (now : Int)
    (h1 : prune (rl.requests k) (now - 60) = rl.requests k)
    (h2 : rl.requests_per_minute ≤ (rl.requests k).length) :
    is_rate_limited rl k now
      = (true, ⟨rl.requests_per_minute,
          fun k2 => if k2 = k then rl.requests k else rl.requests k2⟩) := by
  simp only [is_rate_limited, h1]
  rw [if_pos h2]

lemma runCalls_setW (L : Nat) (k : String) :
    ∀ (ts pre : List Int),
      pre.length + ts.length ≤ L →
      (∀ t ∈ ts, ∀ x ∈ pre ++ ts, t - x < 60) →
      runCalls ⟨L, setW k pre⟩ k ts
        = (List.replicate ts.length false, ⟨L, setW k (pre ++ ts)⟩) := by
  intro ts
  induction ts with
  | nil =>
    intro pre _ _
    simp [runCalls]
  | cons t ts ih =>
    intro pre hlen hgap
    have hkey : (⟨L, setW k pre⟩ : RateLimiter).requests k = pre := by
      simp [setW]
    have hprune : prune pre (t - 60) = pre := by
      apply prune_eq_self
      intro x hx
      have := hgap t (List.mem_cons_self t ts) x (List.mem_append.mpr (Or.inl hx))
      omega
    have hlt : pre.length < L := by
      simp only [List.length_cons] at hlen
      omega
    have hstep : is_rate_limited ⟨L, setW k pre⟩ k t
        = (false, ⟨L, setW k (pre ++ [t])⟩) := by
      rw [is_rate_limited_below_cap ⟨L, setW k pre⟩ k t (by rw [hkey]; exact hprune)
        (by rw [hkey]; exact hlt)]
      refine congrArg (Prod.mk false) ?_
      refine congrArg (RateLimiter.mk L) ?_
      funext k2
      by_cases hk2 : k2 = k
      · simp [hk2, setW, hkey]
      · simp [setW, hk2]
    have hassoc : (pre ++ [t]) ++ ts = pre ++ t :: ts := by
      simp
    have hrest := ih (pre ++ [t])
      (by simp only [List.length_append, List.length_cons, List.length_nil] at hlen ⊢; omega)
      (by
        intro u hu x hx
        rw [hassoc] at hx
        exact hgap u (List.mem_cons_of_mem t hu) x hx)
    simp only [runCalls, hstep, hrest, hassoc, List.length_cons, List.replicate_succ]

lemma runCalls_append (rl : RateLimiter) (k : String) (l1 l2 : List Int) :
    runCalls rl k (l1 ++ l2)
      = ((runCalls rl k l1).1 ++ (runCalls (runCalls rl k l1).2 k l2).1,
         (runCalls (runCalls rl k l1).2 k l2).2) := by
  induction l1 generalizing rl with
  | nil => simp [runCalls]
  | cons t l1 ih => simp [runCalls, ih]

lemma prune_length_le (w : List Int) (m : Int) : (prune w m).length ≤ w.length :=
  List.length_filter_le _ _

lemma is_rate_limited_limit_const (rl : RateLimiter) (k : String) (now : Int) :
    (is_rate_limited rl k now).2.requests_per_minute = rl.requests_per_minute := by
  simp only [is_rate_limited]
  split <;> rfl

lemma is_rate_limited_bound (rl : RateLimiter) (k : String) (now : Int)
    (h : ∀ k2, (rl.requests k2).length ≤ rl.requests_per_minute) (k2 : String) :
    ((is_rate_limited rl k now).2.requests k2).length
      ≤ (is_rate_limited rl k now).2.requests_per_minute := by
  simp only [is_rate_limited]
  split
  next hfull =>
    by_cases hk : k2 = k
    · simpa [hk] using le_trans (prune_length_le (rl.requests k) (now - 60)) (h k)
    · simpa [hk] using h k2
  next hfree =>
    by_cases hk : k2 = k
    · simp [hk]
      omega
    · simpa [hk] using h k2

lemma runAll_limit_const (calls : List (String × Int)) :
    ∀ rl : RateLimiter, (runAll rl calls).requests_per_minute = rl.requests_per_minute := by
  induction calls with
  | nil => intro rl; rfl
  | cons c rest ih =>
    intro rl
    cases c with
    | mk k t => rw [runAll, ih, is_rate_limited_limit_const]

lemma runAll_bound (calls : List (String × Int)) :
    ∀ rl : RateLimiter, (∀ k2, (rl.requests k2).length ≤ rl.requests_per_minute) →
      ∀ k2, ((runAll rl calls).requests k2).length ≤ (runAll rl calls).requests_per_minute := by
  induction calls with
  | nil => intro rl h k2; exact h k2
  | cons c rest ih =>
    intro rl h k2
    cases c with
    | mk k t => exact ih _ (fun k3 => is_rate_limited_bound rl k t h k3) k2

/-- C2: starting from a fresh limiter with limit `L`, for every key and
every `L + 1` call times lying within a single 60-second span, each of the
first `L` calls is admitted (`false` = not limited), the final call is
limited, and its timestamp is not recorded: the window afterwards holds
exactly the first `L` timestamps. -/
theorem rate_limiter_first_L_admitted_then_limited (L : Nat) (k : String)
    (ts : List Int) (tl : Int) (hlen : ts.length = L)
    (hspan : ∀ a ∈ ts ++ [tl], ∀ b ∈ ts ++ [tl], a - b < 60) :
    (runCalls (freshLimiter L) k (ts ++ [tl])).1 = List.replicate L false ++ [true]
    ∧ (runCalls (freshLimiter L) k (ts ++ [tl])).2.requests k = ts := by
  have hfresh : freshLimiter L = ⟨L, setW k []⟩ := by
    refine congrArg (RateLimiter.mk L) ?_
    exact (setW_empty k).symm
  have hgap1 : ∀ t ∈ ts, ∀ x ∈ ([] : List Int) ++ ts, t - x < 60 := by
    intro t ht x hx
    simp only [List.nil_append] at hx
    exact hspan t (List.mem_append.mpr (Or.inl ht)) x (List.mem_append.mpr (Or.inl hx))
  have hfirst := runCalls_setW L k ts [] (by simp [hlen]) hgap1
  simp only [List.nil_append] at hfirst
  have hkey : (⟨L, setW k ts⟩ : RateLimiter).requests k = ts := by simp [setW]
  have hlast : is_rate_limited ⟨L, setW k ts⟩ k tl
      = (true, ⟨L, fun k2 => if k2 = k then ts else setW k ts k2⟩) := by
    have h1 : prune ts (tl - 60) = ts := by
      apply prune_eq_self
      intro x hx
      have := hspan tl (List.mem_append.mpr (Or.inr (List.mem_singleton.mpr rfl))) x
        (List.mem_append.mpr (Or.inl hx))
      omega
    have h2 := is_rate_limited_full ⟨L, setW k ts⟩ k tl (by rw [hkey]; exact h1)
      (by rw [hkey, hlen])
    rw [h2, hkey]
  rw [runCalls_append, hfresh, hfirst]
  constructor
  · simp [runCalls, hlast, hlen]
  · simp [runCalls, hlast]

/-- C7: in any reachable limiter state (any sequence of prior calls from a
fresh limiter with limit `L`), once some recorded timestamp for key `k` is
more than 60 seconds older than the current call time, that call is
admitted (`is_rate_limited` returns `false`), even though earlier calls
for `k` may have been limited. -/
theorem admitted_again_after_window_slides (L : Nat) (calls : List (String × Int))
    (k : String) (now : Int)
    (hold : ∃ t ∈ (runAll (freshLimiter L) calls).requests k, 60 < now - t) :
    (is_rate_limited (runAll (freshLimiter L) calls) k now).1 = false := by
  obtain ⟨t, ht, hage⟩ := hold
  have hlimit : (runAll (freshLimiter L) calls).requests_per_minute = L :=
    runAll_limit_const calls (freshLimiter L)
  have hbound : ((runAll (freshLimiter L) calls).requests k).length ≤ L := by
    have := runAll_bound calls (freshLimiter L) (by intro k2; simp [freshLimiter]) k
    rwa [hlimit] at this
  have hstrict : (prune ((runAll (freshLimiter L) calls).requests k) (now - 60)).length
      < ((runAll (freshLimiter L) calls).requests k).length := by
    refine List.length_filter_lt_length_iff_exists.mpr ⟨t, ht, ?_⟩
    simp only [decide_eq_true_eq]
    omega
  simp only [is_rate_limited]
  rw [if_neg (by omega)]

/-- Witness for C7: limit 1, key limited at time 0, admitted again at 100. -/
theorem admitted_again_after_window_slides_witness :
    (is_rate_limited (runAll (freshLimiter 1) [("k", 0)]) "k" 100).1 = false :=
  admitted_again_after_window_slides 1 [("k", 0)] "k" 100 (by decide)

/-- C8: for every limiter state, key, and call time — Admitted and Limited
calls alike — every timestamp kept by the prune step of the call (the
list written back as the stored window, before the possible append) lies
strictly within the trailing 60-second window; and when the call admits
the request (returns `false`), the stored window of the key afterwards
has length at most the configured limit. -/
theorem rate_window_invariant (rl : RateLimiter) (k : String) (now : Int) :
    (∀ t ∈ prune (rl.requests k) (now - 60), now - t < 60)
    ∧ ((is_rate_limited rl k now).1 = false →
        ((is_rate_limited rl k now).2.requests k).length ≤ rl.requests_per_minute) := by
  constructor
  · intro t ht
    have := (List.mem_filter.mp ht).2
    simp only [decide_eq_true_eq] at this
    omega
  · intro h
    have hlt : (prune (rl.requests k) (now - 60)).length < rl.requests_per_minute := by
      by_contra hc
      simp only [is_rate_limited] at h
      rw [if_pos (by omega)] at h
      exact absurd h (by simp)
    simp only [is_rate_limited]
    rw [if_neg (by omega)]
    simp
    omega

/-- Witness for C8 at a fresh limiter, key "k", call time 5: the call is
admitted, the freshness invariant holds, and the admitted-length bound is
discharged at that input. -/
theorem rate_window_invariant_witness :
    (is_rate_limited (freshLimiter 60) "k" 5).1 = false
    ∧ (∀ t ∈ prune ((freshLimiter 60).requests "k") (5 - 60), 5 - t < 60)
    ∧ ((is_rate_limited (freshLimiter 60) "k" 5).2.requests "k").length
        ≤ (freshLimiter 60).requests_per_minute :=
  ⟨by decide, (rate_window_invariant (freshLimiter 60) "k" 5).1,
    (rate_window_invariant (freshLimiter 60) "k" 5).2 (by decide)⟩

/-- C6: a timestamp whose age at the current call is exactly 60 seconds is
not retained by the prune step; a stored timestamp survives the prune
exactly when its age is strictly below 60 seconds; and the limited
decision of `is_rate_limited` counts only the surviving timestamps. -/
theorem prune_boundary_age_sixty (rl : RateLimiter) (k : String) (now t : Int)
    (hage : now - t = 60) :
    t ∉ prune (rl.requests k) (now - 60)
    ∧ (∀ x, x ∈ prune (rl.requests k) (now - 60) ↔ x ∈ rl.requests k ∧ now - x < 60)
    ∧ ((is_rate_limited rl k now).1 = true
        ↔ rl.requests_per_minute ≤ (prune (rl.requests k) (now - 60)).length) := by
  refine ⟨?_, ?_, ?_⟩
  · intro hmem
    have := (List.mem_filter.mp hmem).2
    simp only [decide_eq_true_eq] at this
    omega
  · intro x
    simp only [prune, List.mem_filter, decide_eq_true_eq]
    constructor
    · rintro ⟨h1, h2⟩
      exact ⟨h1, by omega⟩
    · rintro ⟨h1, h2⟩
      exact ⟨h1, by omega⟩
  · simp only [is_rate_limited]
    split
    next hc => simp [hc]
    next hc => simp [hc]

/-- Witness for C6: one stored timestamp 0, call at time 60. -/
theorem prune_boundary_age_sixty_witness :
    (0 : Int) ∉ prune ((⟨1, setW "k" [0]⟩ : RateLimiter).requests "k") (60 - 60)
    ∧ (∀ x, x ∈ prune ((⟨1, setW "k" [0]⟩ : RateLimiter).requests "k") (60 - 60)
        ↔ x ∈ (⟨1, setW "k" [0]⟩ : RateLimiter).requests "k" ∧ 60 - x < 60)
    ∧ ((is_rate_limited ⟨1, setW "k" [0]⟩ "k" 60).1 = true
        ↔ (⟨1, setW "k" [0]⟩ : RateLimiter).requests_per_minute
            ≤ (prune ((⟨1, setW "k" [0]⟩ : RateLimiter).requests "k") (60 - 60)).length) :=
  prune_boundary_age_sixty ⟨1, setW "k" [0]⟩ "k" 60 0 (by decide)

/-- Witness for C2 at limit 2, key "k1", call times 0, 1, 2. -/
theorem rate_limiter_first_L_admitted_then_limited_witness :
    (runCalls (freshLimiter 2) "k1" ([0, 1] ++ [2])).1 = List.replicate 2 false ++ [true]
    ∧ (runCalls (freshLimiter 2) "k1" ([0, 1] ++ [2])).2.requests "k1" = [0, 1] :=
  rate_limiter_first_L_admitted_then_limited 2 "k1" [0, 1] 2 (by decide) (by decide)

lemma validateOptDict_isSome (o : Option Json) :
    (validateOptDict o).isSome = isOptionalDictField o := by
  cases o with
  | none => rfl
  | some j => cases j <;> rfl

lemma allStrings_isSome (xs : List Json) :
    (allStrings xs).isSome = xs.all isStringJson := by
  induction xs with
  | nil => rfl
  | cons x rest ih =>
    cases x <;> simp [allStrings, isStringJson, List.all_cons, ← ih] <;>
      cases allStrings rest <;> simp

lemma validateUIComponent_isSome (fields : List (String × Json)) :
    (validateUIComponent fields).isSome = specComponentOk fields := by
  unfold validateUIComponent specComponentOk
  cases htype : lookupField fields "type" with
  | none => simp [isEnumTypeField]
  | some jt =>
    cases jt with
    | str s =>
      cases hct : ComponentType.fromValue s with
      | none => simp [isEnumTypeField, hct]
      | some ct =>
        cases hprops : lookupField fields "props" with
        | none => simp [isEnumTypeField, hct, isDictField]
        | some jp =>
          cases jp <;> simp [isEnumTypeField, hct, isDictField] <;>
            rw [← validateOptDict_isSome, ← validateOptDict_isSome] <;>
            cases validateOptDict (lookupField fields "styles") <;>
            cases validateOptDict (lookupField fields "accessibility") <;> simp
    | null => simp [isEnumTypeField]
    | bool b => simp [isEnumTypeField]
    | num n => simp [isEnumTypeField]
    | arr xs => simp [isEnumTypeField]
    | obj fs => simp [isEnumTypeField]

lemma validateDesignPattern_isSome (fields : List (String × Json)) :
    (validateDesignPattern fields).isSome = specPatternOk fields := by
  unfold validateDesignPattern specPatternOk
  cases hpt : lookupField fields "pattern_type" with
  | none => simp [isStringField]
  | some jt =>
    cases jt with
    | str s =>
      cases hctx : lookupField fields "context" with
      | none => simp [isStringField, isDictField]
      | some jc =>
        cases jc <;> simp [isStringField, isDictField] <;>
        · cases hcs : lookupField fields "constraints" with
          | none => simp [isOptionalStringListField]
          | some jl =>
            cases jl <;> simp [isOptionalStringListField] <;>
              rw [← allStrings_isSome] <;> cases allStrings _ <;> simp
    | null => simp [isStringField]
    | bool b => simp [isStringField]
    | num n => simp [isStringField]
    | arr xs => simp [isStringField]
    | obj fs => simp [isStringField]

lemma is_rate_limited_false (rl : RateLimiter) (k : String) (now : Int)
    (hq : (prune (rl.requests k) (now - 60)).length < rl.requests_per_minute) :
    (is_rate_limited rl k now).1 = false := by
  simp only [is_rate_limited]
  rw [if_neg (by omega)]

lemma validate_request_ok (rl : RateLimiter) (req : Request) (now : Int) (k : String)
    (hkey : req.apiKey = some k) (hk : k ≠ "")
    (hq : (prune (rl.requests k) (now - 60)).length < rl.requests_per_minute) :
    validate_request rl req now = (Except.ok k, (is_rate_limited rl k now).2) := by
  simp only [validate_request, hkey]
  rw [if_neg hk]
  simp [is_rate_limited_false rl k now hq]

/-- C9: any exception other than a `web.HTTPException` escaping the body
of a handler produces the fixed response with status 500 and reason
exactly "Internal server error occurred"; the response is the same
constant whatever the detail of the internal fault, which is never exposed. -/
theorem internal_error_response_uniform (detail : String) :
    handlerWrapper (PyOutcome.exc detail)
      = errResponse 500 "Internal server error occurred" := rfl

/-- C10: a `/detect_bugs` request with a non-empty API key that has
remaining quota and whose JSON body is an object containing the keys
"code" and "context" (values of any type) is answered with status 200 and
the envelope {"status":"success","issues":[]}, the issues list always
empty. -/
theorem detect_bugs_returns_empty_issues (rl : RateLimiter) (k : String) (now : Int)
    (fields : List (String × Json)) (hk : k ≠ "")
    (hq : (prune (rl.requests k) (now - 60)).length < rl.requests_per_minute)
    (hcode : hasField fields "code" = true)
    (hctx : hasField fields "context" = true) :
    (handle rl ⟨"/detect_bugs", some k, some (Json.obj fields)⟩ now).1
      = ⟨200, Json.obj [("status", Json.str "success"), ("issues", Json.arr [])]⟩ := by
  simp only [handle]
  simp only [detect_bugs, detect_bugs_attempt,
    validate_request_ok rl ⟨"/detect_bugs", some k, some (Json.obj fields)⟩ now k rfl hk hq]
  simp [pyContains, hcode, hctx, handlerWrapper]

/-- Witness for C10: fresh limiter, key "k", body with non-string values
for both required keys. -/
theorem detect_bugs_returns_empty_issues_witness :
    (handle (freshLimiter 60)
        ⟨"/detect_bugs", some "k",
          some (Json.obj [("code", Json.num 123), ("context", Json.null)])⟩ 0).1
      = ⟨200, Json.obj [("status", Json.str "success"), ("issues", Json.arr [])]⟩ :=
  detect_bugs_returns_empty_issues (freshLimiter 60) "k" 0
    [("code", Json.num 123), ("context", Json.null)]
    (by decide) (by decide) (by decide) (by decide)

/-- C1 (code bug): the claim, the spec scenario, and the repository test
`test_api_key_authentication` all expect 200 with the success envelope
for the valid body {"type":"button","props":{}} under a fresh key, but
the code answers 500 "Internal server error occurred": serialising
`component.dict()` raises `TypeError` on the plain `ComponentType` Enum
member inside `web.json_response`, and the generic `except` converts it
to the 500. Evaluated here at the failing input. -/
theorem generate_component_button_internal_error :
    (handle (freshLimiter 60) ⟨"/generate_component", some "test_key",
        some (Json.obj [("type", Json.str "button"), ("props", Json.obj [])])⟩ 0).1
      = errResponse 500 "Internal server error occurred" := rfl

/-- C4 counterexample: the claim ranges over every incoming request, but a
request to an unregistered path with no `X-API-Key` header is answered by
the router with 404, not 401: routing happens before authentication, so
the missing key is never noticed. -/
theorem unknown_path_no_key_counterexample :
    (handle (freshLimiter 60) ⟨"/unknown_path", none, none⟩ 0).1.status = 404
    ∧ (handle (freshLimiter 60) ⟨"/unknown_path", none, none⟩ 0).1.status ≠ 401 := by
  constructor
  · rfl
  · decide

/-- C4 (amended): for a request routed to one of the three registered
endpoints, a missing or empty `X-API-Key` header yields exactly the 401
response with reason "API key required", and the limiter state is
returned unchanged: rate limiting, body parsing, validation, and dispatch
are all skipped. -/
theorem missing_api_key_short_circuits (rl : RateLimiter) (path : String)
    (key : Option String) (body : Option Json) (now : Int)
    (hpath : path = "/generate_component" ∨ path = "/apply_pattern"
      ∨ path = "/detect_bugs")
    (hkey : key = none ∨ key = some "") :
    handle rl ⟨path, key, body⟩ now = (errResponse 401 "API key required", rl) := by
  rcases hkey with hkey | hkey <;> rcases hpath with hpath | hpath | hpath <;>
    subst hkey <;> subst hpath <;> rfl

/-- Witness for C4 (amended): `/generate_component` with no key. -/
theorem missing_api_key_short_circuits_witness :
    handle (freshLimiter 60) ⟨"/generate_component", none, none⟩ 0
      = (errResponse 401 "API key required", freshLimiter 60) :=
  missing_api_key_short_circuits (freshLimiter 60) "/generate_component" none none 0
    (Or.inl rfl) (Or.inl rfl)

/-- C5 counterexample: a `/detect_bugs` payload whose `code` is a number
(not a string) and whose `context` is a number (not a map) is accepted
with status 200; the claim requires 400 for wrongly-typed required
fields of BugDetectionRequest. -/
theorem detect_bugs_no_type_check_counterexample :
    (handle (freshLimiter 60) ⟨"/detect_bugs", some "k",
        some (Json.obj [("code", Json.num 123), ("context", Json.num 5)])⟩ 0).1.status
      = 200
    ∧ (handle (freshLimiter 60) ⟨"/detect_bugs", some "k",
        some (Json.obj [("code", Json.num 123), ("context", Json.num 5)])⟩ 0).1.status
      ≠ 400 := by
  constructor
  · rfl
  · decide

/-- C5 (amended): for an authenticated key with remaining quota and JSON
object payloads, `/generate_component` rejects with 400 exactly the
payloads not well-formed for the documented ComponentRequest schema, but
answers the well-formed ones with 500, never 200, because serialising the
`ComponentType` Enum member of the validated model raises `TypeError`
(the C1 bug); `/apply_pattern` returns 200 exactly on payloads
well-formed for the documented PatternRequest schema and 400 otherwise;
`/detect_bugs` checks only the presence of the keys "code" and "context",
returning 200 whenever both are present regardless of their value types,
and 400 otherwise. -/
theorem schema_validation_statuses (rl : RateLimiter) (k : String) (now : Int)
    (fc fp fb : List (String × Json)) (hk : k ≠ "")
    (hq : (prune (rl.requests k) (now - 60)).length < rl.requests_per_minute) :
    ((handle rl ⟨"/generate_component", some k, some (Json.obj fc)⟩ now).1.status
        = if specComponentOk fc then 500 else 400)
    ∧ ((handle rl ⟨"/apply_pattern", some k, some (Json.obj fp)⟩ now).1.status
        = if specPatternOk fp then 200 else 400)
    ∧ ((handle rl ⟨"/detect_bugs", some k, some (Json.obj fb)⟩ now).1.status
        = if hasField fb "code" && hasField fb "context" then 200 else 400) := by
  refine ⟨?_, ?_, ?_⟩
  · simp only [handle]
    simp only [generate_component, generate_component_attempt,
      validate_request_ok rl ⟨"/generate_component", some k, some (Json.obj fc)⟩ now k
        rfl hk hq]
    by_cases hC : specComponentOk fc = true
    · have hs : (validateUIComponent fc).isSome = true := by
        rw [validateUIComponent_isSome]
        exact hC
      obtain ⟨c, hc⟩ := Option.isSome_iff_exists.mp hs
      simp [hc, hC, handlerWrapper, errResponse]
    · have h0 : validateUIComponent fc = none := by
        rw [← Option.not_isSome_iff_eq_none, validateUIComponent_isSome]
        simpa using hC
      simp [h0, hC, handlerWrapper, errResponse]
  · simp only [handle]
    simp only [apply_pattern, apply_pattern_attempt,
      validate_request_ok rl ⟨"/apply_pattern", some k, some (Json.obj fp)⟩ now k
        rfl hk hq]
    by_cases hP : specPatternOk fp = true
    · have hs : (validateDesignPattern fp).isSome = true := by
        rw [validateDesignPattern_isSome]
        exact hP
      obtain ⟨p, hp⟩ := Option.isSome_iff_exists.mp hs
      simp [hp, hP, handlerWrapper]
    · have h0 : validateDesignPattern fp = none := by
        rw [← Option.not_isSome_iff_eq_none, validateDesignPattern_isSome]
        simpa using hP
      simp [h0, hP, handlerWrapper, errResponse]
  · simp only [handle]
    simp only [detect_bugs, detect_bugs_attempt,
      validate_request_ok rl ⟨"/detect_bugs", some k, some (Json.obj fb)⟩ now k
        rfl hk hq]
    by_cases hcode : hasField fb "code" = true
    · by_cases hctx : hasField fb "context" = true
      · simp [pyContains, hcode, hctx, handlerWrapper]
      · simp only [Bool.not_eq_true] at hctx
        simp [pyContains, hcode, hctx, handlerWrapper, errResponse]
    · simp only [Bool.not_eq_true] at hcode
      simp [pyContains, hcode, handlerWrapper, errResponse]

/-- Witness for C5 (amended): a valid component body, a valid pattern
body, and a bug-detection body carrying both keys. -/
theorem schema_validation_statuses_witness :
    ((handle (freshLimiter 60) ⟨"/generate_component", some "k",
        some (Json.obj [("type", Json.str "card"), ("props", Json.obj [])])⟩ 0).1.status
        = if specComponentOk [("type", Json.str "card"), ("props", Json.obj [])]
            then 500 else 400)
    ∧ ((handle (freshLimiter 60) ⟨"/apply_pattern", some "k",
        some (Json.obj [("pattern_type", Json.str "mvc"), ("context", Json.obj [])])⟩ 0).1.status
        = if specPatternOk [("pattern_type", Json.str "mvc"), ("context", Json.obj [])]
            then 200 else 400)
    ∧ ((handle (freshLimiter 60) ⟨"/detect_bugs", some "k",
        some (Json.obj [("code", Json.str "x"), ("context", Json.obj [])])⟩ 0).1.status
        = if hasField [("code", Json.str "x"), ("context", Json.obj [])] "code"
              && hasField [("code", Json.str "x"), ("context", Json.obj [])] "context"
            then 200 else 400) :=
  schema_validation_statuses (freshLimiter 60) "k" 0
    [("type", Json.str "card"), ("props", Json.obj [])]
    [("pattern_type", Json.str "mvc"), ("context", Json.obj [])]
    [("code", Json.str "x"), ("context", Json.obj [])]
    (by decide) (by decide)
